import Mathlib

/-!
Verification development for the pvc-exporter scan-cycle core
(`src/pvc-exporter.py`).  The Python functions `parse_size`,
`get_pvc_used`, `get_pvc_pv_pair`, `update_pvc_metrics`,
`update_pvc_pod_mapping`, `handle_pvc`, `handle_volume`, `handle_pod`
and `update_metrics` are embedded as executable Lean definitions, with
the Kubernetes API, the mount table and filesystem statistics supplied
by an explicit environment record.  Metric gauges are association lists
from label tuples to values; every metric operation and every log line
is also recorded as an `Event` so that per-cycle emissions can be
inspected separately from the persistent gauge state.
-/

namespace PvcExporter

/-! ### Python string helpers -/

/-- One character list starts with another. -/
def listStartsWith : List Char → List Char → Bool
  | _, [] => true
  | [], _ :: _ => false
  | h :: t, n :: ns => (h == n) && listStartsWith t ns

/-- One character list occurs contiguously inside another. -/
def listContainsSub (hay needle : List Char) : Bool :=
  match hay with
  | [] => needle.isEmpty
  | _ :: t => listStartsWith hay needle || listContainsSub t needle

/-- Python `needle in hay` substring test (`pv.metadata.name in line`). -/
def strContains (hay needle : String) : Bool :=
  listContainsSub hay.toList needle.toList

/-- Tokenizer worker for Python `line.split()`: `cur` holds the current
token's characters in reverse. -/
def pySplitWsAux : List Char → List Char → List String
  | [], cur => if cur.isEmpty then [] else [String.mk cur.reverse]
  | c :: cs, cur =>
    if c.isWhitespace then
      if cur.isEmpty then pySplitWsAux cs []
      else String.mk cur.reverse :: pySplitWsAux cs []
    else pySplitWsAux cs (c :: cur)

/-- Python `line.split()`: split on whitespace runs, dropping empty tokens. -/
def pySplitWs (s : String) : List String :=
  pySplitWsAux s.toList []

/-- Python slice `s[:-2]`: everything but the last two characters. -/
def pyFront2 (s : String) : String :=
  String.mk s.toList.dropLast.dropLast

/-- Python slice `s[-2:]`: the last two characters (the whole string when shorter). -/
def pyBack2 (s : String) : String :=
  String.mk (s.toList.drop (s.toList.length - 2))

/-- Python truthiness of an optional string attribute (`if pvc.spec.volume_name:`):
`None` and the empty string are falsy. -/
def truthy : Option String → Bool
  | none => false
  | some s => !s.isEmpty

/-! ### Python float parsing, modelled exactly over the rationals

Python's `float(num)` accepts an optional sign, digits, and an optional
fractional part, after stripping surrounding whitespace.  We model this
grammar (without exponents, `inf`/`nan` or digit underscores, none of
which appear in Kubernetes quantities) and give it exact rational
semantics; every magnitude a claim exercises is exactly representable
as a double, so the rational value agrees with Python's. -/

/-- Value of a digit string as a natural number. -/
def digitsToNat (ds : List Char) : Nat :=
  ds.foldl (fun n c => 10 * n + (c.toNat - '0'.toNat)) 0

/-- Strip leading and trailing whitespace, as Python `float` does. -/
def pyStrip (cs : List Char) : List Char :=
  ((cs.dropWhile Char.isWhitespace).reverse.dropWhile Char.isWhitespace).reverse

/-- Parse an optional sign; `true` means negative. -/
def pySignB : List Char → Bool × List Char
  | '+' :: rest => (false, rest)
  | '-' :: rest => (true, rest)
  | cs => (false, cs)

/-- A parsed decimal literal: sign, integer part, fractional digits as a
number, and the count of fractional digits. -/
structure PyDecimal where
  neg : Bool
  ip : ℕ
  fp : ℕ
  fpLen : ℕ
  deriving DecidableEq, Repr

/-- Python `float(num)` on a plain decimal literal, kept in exact parsed
form; `none` models a `ValueError`. -/
def pyDecimal? (s : String) : Option PyDecimal :=
  let cs := pyStrip s.toList
  let p := pySignB cs
  let ip := p.2.takeWhile Char.isDigit
  let rest := p.2.dropWhile Char.isDigit
  match rest with
  | [] =>
      if ip.isEmpty then none
      else some ⟨p.1, digitsToNat ip, 0, 0⟩
  | '.' :: rest2 =>
      let fp := rest2.takeWhile Char.isDigit
      let rest3 := rest2.dropWhile Char.isDigit
      if !rest3.isEmpty then none
      else if ip.isEmpty && fp.isEmpty then none
      else some ⟨p.1, digitsToNat ip, digitsToNat fp, fp.length⟩
  | _ => none

/-- Exact rational value of a parsed decimal literal. -/
def PyDecimal.toRat (d : PyDecimal) : ℚ :=
  (cond d.neg (-1) 1) * ((d.ip : ℚ) + (d.fp : ℚ) / (10 : ℚ) ^ d.fpLen)

/-- Python `int(float(num))`: truncation toward zero of the literal's
value, which for a decimal literal is its signed integer part.
`trunc_eq_pyInt_toRat` below proves this agrees with real truncation of
`toRat`. -/
def PyDecimal.trunc (d : PyDecimal) : ℤ :=
  cond d.neg (-(d.ip : ℤ)) (d.ip : ℤ)

/-- Truncation toward zero of a rational, as Python `int()` rounds. -/
def pyInt (q : ℚ) : ℤ :=
  if 0 ≤ q then ⌊q⌋ else -⌊-q⌋

/-- Errors a cycle can raise: `ValueError` from `float`, `KeyError` from the
unit-suffix dictionary lookup.  Both realise the spec's `MalformedQuantity`. -/
inductive PyErr
  | valueError
  | keyError
  deriving DecidableEq, Repr

/-- The `units` dictionary of `parse_size`: binary suffix to multiplier. -/
def unitsMap : String → Option ℤ
  | "Ki" => some 1024
  | "Mi" => some (1024 ^ 2)
  | "Gi" => some (1024 ^ 3)
  | "Ti" => some (1024 ^ 4)
  | "Pi" => some (1024 ^ 5)
  | _ => none

/-- Embedding of `parse_size` (source lines 125-128):
`num, unit = size_str[:-2], size_str[-2:]` then
`int(float(num)) * units[unit]`.  Python evaluates `int(float(num))`
before the dictionary lookup, so a bad magnitude raises `ValueError`
before a bad suffix can raise `KeyError`. -/
def parse_size (size_str : String) : Except PyErr ℤ :=
  match pyDecimal? (pyFront2 size_str) with
  | none => .error .valueError
  | some d =>
      match unitsMap (pyBack2 size_str) with
      | none => .error .keyError
      | some u => .ok (d.trunc * u)

/-- A result is a `MalformedQuantity` failure when it is any raised error. -/
def isMalformedQuantity : Except PyErr ℤ → Bool
  | .error _ => true
  | .ok _ => false

instance : DecidableEq (Except PyErr ℤ) := fun a b =>
  match a, b with
  | .error e1, .error e2 => decidable_of_iff (e1 = e2) (by simp)
  | .ok v1, .ok v2 => decidable_of_iff (v1 = v2) (by simp)
  | .error _, .ok _ => isFalse (fun h => by cases h)
  | .ok _, .error _ => isFalse (fun h => by cases h)

/-! ### Data model -/

/-- A pod volume: `some c` when the volume carries a
`V1PersistentVolumeClaimVolumeSource` with `claim_name = c`, `none` for
every other volume kind (the `isinstance` check rejects them). -/
structure Volume where
  pvcClaimName : Option String
  deriving DecidableEq, Repr

/-- A workload pod: name, namespace, reported host address
(`pod.status.host_ip`, optional in the client model), run phase, and its
volume list. -/
structure Pod where
  name : String
  ns : String
  hostIP : Option String
  phase : String
  volumes : List Volume
  deriving DecidableEq, Repr

/-- A storage claim: name, namespace, and the bound volume name
(`pvc.spec.volume_name`, `None` or empty when unbound). -/
structure PVC where
  name : String
  ns : String
  volumeName : Option String
  deriving DecidableEq, Repr

/-- A storage volume: name, whether `pv.spec.csi` is set, and the
declared capacity string `pv.spec.capacity.get('storage')`. -/
structure PV where
  name : String
  csi : Bool
  capacity : Option String
  deriving DecidableEq, Repr

/-- Filesystem statistics returned by `os.statvfs`. -/
structure StatVFS where
  f_blocks : Nat
  f_bfree : Nat
  f_frsize : Nat
  deriving DecidableEq, Repr

/-- The external world one cycle reads: the `HOST_IP` environment
variable, the pod list, the two Kubernetes read calls (`none` models the
call raising), the mount table (`none` models `open` failing) and
`os.statvfs` (`none` models it raising). -/
structure Env where
  hostIPEnv : Option String
  pods : List Pod
  readPVC : String → String → Option PVC
  readPV : String → Option PV
  mtab : Option (List String)
  statvfs : String → Option StatVFS

/-! ### Gauges as association lists -/

/-- Look up a label tuple in a gauge. -/
def getAt [DecidableEq κ] : List (κ × ℤ) → κ → Option ℤ
  | [], _ => none
  | (k', v') :: rest, k => if k' = k then some v' else getAt rest k

/-- Set a label tuple's value, replacing any earlier entry for it. -/
def setAt [DecidableEq κ] (m : List (κ × ℤ)) (k : κ) (v : ℤ) : List (κ × ℤ) :=
  match m with
  | [] => [(k, v)]
  | (k', v') :: rest => if k' = k then (k, v) :: rest else (k', v') :: setAt rest k v

/-- Python dict assignment `d[k] = v` for an association list with an
arbitrary value type (used for the `pvc_to_pv` cache). -/
def setPair [DecidableEq κ] (m : List (κ × α)) (k : κ) (v : α) : List (κ × α) :=
  match m with
  | [] => [(k, v)]
  | (k', v') :: rest => if k' = k then (k, v) :: rest else (k', v') :: setPair rest k v

/-- Increment a label tuple's value, starting from 0 when absent
(prometheus `Gauge.labels(...).inc()`). -/
def incAt [DecidableEq κ] (m : List (κ × ℤ)) (k : κ) : List (κ × ℤ) :=
  setAt m k ((getAt m k).getD 0 + 1)

/-- Usage and capacity label tuples: claim name, claim namespace, `pvc_type`
(the `pvc_type` Python value may be `None`, hence optional). -/
structure UCKey where
  claim : String
  ns : String
  ty : Option String
  deriving DecidableEq, Repr

/-- Mapping label tuples: claim, `pvc_namespace`, pod name, `pod_namespace`,
`host_ip`. -/
structure MapKey where
  claim : String
  pvcNs : String
  podName : String
  podNs : String
  hostIP : Option String
  deriving DecidableEq, Repr

/-- The three exposed gauge families. -/
structure Metrics where
  usage : List (UCKey × ℤ)
  capacity : List (UCKey × ℤ)
  mapping : List (MapKey × ℤ)
  deriving DecidableEq, Repr

/-- The empty exposed metric set. -/
def emptyMetrics : Metrics := ⟨[], [], []⟩

/-! ### Events: the observable trace of one cycle -/

/-- Everything a cycle does that a claim talks about: Binder and Prober
invocations, error log lines, and each metric sample emission. -/
inductive Event
  | binderCall (claim ns : String)
  | probeCall (pvName : String)
  | logError (context : String)
  | emitUsage (claim ns : String) (ty : Option String) (v : ℤ)
  | emitCapacity (claim ns : String) (ty : Option String) (v : ℤ)
  | emitMapping (claim pvcNs podName podNs : String) (hostIP : Option String)
  deriving DecidableEq, Repr

/-- In-cycle state: the claim-to-volume cache `pvc_to_pv`, the dedup set
`processed_pvc`, the (persistent) gauges, the event trace, and the
pending uncaught exception, if any. -/
structure St where
  pvc_to_pv : List (String × (PVC × PV))
  processed : List String
  metrics : Metrics
  events : List Event
  err? : Option PyErr

/-! ### The cycle functions, one per Python function -/

/-- Scan loop body of `get_pvc_used` (source lines 134-141): first line
containing the volume name wins; `line.split()[1]` can raise `IndexError`
(caught and logged by the enclosing `try`), and only a CSI-backed volume
is measured — a non-CSI volume keeps scanning and falls off the end. -/
def scanMtab (stat : String → Option StatVFS) (pv : PV) :
    List String → (Option ℤ × Option String) × List Event
  | [] => ((none, none), [])
  | line :: rest =>
    if strContains line pv.name then
      match (pySplitWs line)[1]? with
      | none => ((none, none), [.logError pv.name])
      | some mp =>
        if pv.csi then
          match stat mp with
          | none => ((none, none), [.logError pv.name])
          | some stv =>
              ((some ((stv.f_blocks - stv.f_bfree : ℤ) * stv.f_frsize), some "csi"), [])
        else scanMtab stat pv rest
    else scanMtab stat pv rest

/-- Embedding of `get_pvc_used` (source lines 131-144).  A failure to open
the mount table, an `IndexError` on a short line, or a `statvfs` failure is
caught, logged, and yields `(None, None)` — the same value as "no match" or
"not CSI-backed". -/
def get_pvc_used (env : Env) (pv : PV) : (Option ℤ × Option String) × List Event :=
  match env.mtab with
  | none => ((none, none), [.logError pv.name])
  | some lines => scanMtab env.statvfs pv lines

/-- Embedding of `get_pvc_pv_pair` (source lines 82-91).  An API failure on
either read is caught and logged; a claim with no truthy bound volume name
returns `(None, None)` silently. -/
def get_pvc_pv_pair (env : Env) (claim_ref ns : String) :
    Option (PVC × PV) × List Event :=
  match env.readPVC claim_ref ns with
  | none => (none, [.logError claim_ref])
  | some pvc =>
    if truthy pvc.volumeName then
      match env.readPV (pvc.volumeName.getD "") with
      | none => (none, [.logError claim_ref])
      | some pv => (some (pvc, pv), [])
    else (none, [])

/-- Embedding of `update_pvc_metrics` (source lines 94-110): probe usage,
set the usage gauge when measurable, then parse the declared capacity and
set the capacity gauge.  `parse_size` raising propagates out uncaught. -/
def update_pvc_metrics (env : Env) (pvc : PVC) (pv : PV) (st : St) : St :=
  if st.err?.isSome then st else
  let r := get_pvc_used env pv
  let used? := r.1.1
  let ty? := r.1.2
  let st1 : St := { st with events := st.events ++ [.probeCall pv.name] ++ r.2 }
  let st2 : St :=
    match used? with
    | some u =>
        { st1 with
          metrics := { st1.metrics with usage := setAt st1.metrics.usage ⟨pvc.name, pvc.ns, ty?⟩ u },
          events := st1.events ++ [.emitUsage pvc.name pvc.ns ty? u] }
    | none => st1
  if truthy pv.capacity then
    match parse_size (pv.capacity.getD "") with
    | .error e => { st2 with err? := some e }
    | .ok b =>
        { st2 with
          metrics := { st2.metrics with capacity := setAt st2.metrics.capacity ⟨pvc.name, pvc.ns, ty?⟩ b },
          events := st2.events ++ [.emitCapacity pvc.name pvc.ns ty? b] }
  else st2

/-- Embedding of `update_pvc_pod_mapping` (source lines 113-121): the
mapping gauge is INCREMENTED for the tuple, with the pod's namespace used
for both namespace labels. -/
def update_pvc_pod_mapping (claim_ref ns : String) (pod : Pod) (st : St) : St :=
  if st.err?.isSome then st else
  { st with
    metrics := { st.metrics with
                 mapping := incAt st.metrics.mapping ⟨claim_ref, ns, pod.name, ns, pod.hostIP⟩ },
    events := st.events ++ [.emitMapping claim_ref ns pod.name ns pod.hostIP] }

/-- Embedding of `handle_pvc` (source lines 74-79): resolve the claim; on
success cache the pair, update the gauges, and only then mark the claim
processed (an exception inside `update_pvc_metrics` skips the mark). -/
def handle_pvc (env : Env) (claim_ref ns : String) (st : St) : St :=
  if st.err?.isSome then st else
  let r := get_pvc_pv_pair env claim_ref ns
  let st1 : St := { st with events := st.events ++ [.binderCall claim_ref ns] ++ r.2 }
  match r.1 with
  | none => st1
  | some (pvc, pv) =>
      let st2 : St := { st1 with pvc_to_pv := setPair st1.pvc_to_pv claim_ref (pvc, pv) }
      let st3 := update_pvc_metrics env pvc pv st2
      if st3.err?.isSome then st3
      else { st3 with processed := st3.processed ++ [claim_ref] }

/-- Embedding of `handle_volume` (source lines 61-71): ignore non-claim
volumes; if the claim name is already in the dedup set RETURN AT ONCE —
neither `handle_pvc` nor `update_pvc_pod_mapping` runs for it. -/
def handle_volume (env : Env) (vol : Volume) (pod : Pod) (ns : String) (st : St) : St :=
  if st.err?.isSome then st else
  match vol.pvcClaimName with
  | none => st
  | some claim_ref =>
    if claim_ref ∈ st.processed then st
    else update_pvc_pod_mapping claim_ref ns pod (handle_pvc env claim_ref ns st)

/-- Embedding of `handle_pod` (source lines 52-58): skip any pod whose
`host_ip` differs from the `HOST_IP` environment variable (Python `!=`,
so `None == None` passes) or whose phase is not `Running`. -/
def handle_pod (env : Env) (pod : Pod) (st : St) : St :=
  if st.err?.isSome then st else
  if pod.hostIP ≠ env.hostIPEnv ∨ pod.phase ≠ "Running" then st
  else pod.volumes.foldl (fun s v => handle_volume env v pod pod.ns s) st

/-- Embedding of `update_metrics` (source lines 39-49): fresh cache and
dedup set each cycle, then walk every pod.  The gauges persist from the
previous cycle; the trace starts empty. -/
def update_metrics (env : Env) (m : Metrics) : St :=
  env.pods.foldl (fun s p => handle_pod env p s)
    { pvc_to_pv := [], processed := [], metrics := m, events := [], err? := none }

/-- One iteration of the `run_exporter` loop: the exception, if any, is
caught and logged, and whatever gauge updates already happened persist. -/
def runCycle (env : Env) (m : Metrics) : Metrics :=
  (update_metrics env m).metrics

/-! ### Event classifiers -/

/-- The event is a mapping-sample emission. -/
def isMappingEv : Event → Bool
  | .emitMapping _ _ _ _ _ => true
  | _ => false

/-- The event is a usage-sample emission. -/
def isUsageEv : Event → Bool
  | .emitUsage _ _ _ _ => true
  | _ => false

/-- The event is a capacity-sample emission. -/
def isCapacityEv : Event → Bool
  | .emitCapacity _ _ _ _ => true
  | _ => false

/-- The event is a Binder invocation. -/
def isBinderEv : Event → Bool
  | .binderCall _ _ => true
  | _ => false

/-- The event is a Prober invocation. -/
def isProbeEv : Event → Bool
  | .probeCall _ => true
  | _ => false

/-- The event is an error log line. -/
def isLogEv : Event → Bool
  | .logError _ => true
  | _ => false

/-- The event is a usage emission for the given claim name. -/
def isUsageFor (c : String) : Event → Bool
  | .emitUsage c' _ _ _ => c = c'
  | _ => false

/-- The event is a capacity emission for the given claim name. -/
def isCapacityFor (c : String) : Event → Bool
  | .emitCapacity c' _ _ _ => c = c'
  | _ => false

/-- The event carries the given namespace in any of its labels. -/
def mentionsNs (n : String) : Event → Bool
  | .binderCall _ ns => ns = n
  | .emitUsage _ ns _ _ => ns = n
  | .emitCapacity _ ns _ _ => ns = n
  | .emitMapping _ pvcNs _ podNs _ => pvcNs = n || podNs = n
  | _ => false

/-- Number of events in the trace satisfying a classifier. -/
def countIf (p : Event → Bool) (es : List Event) : ℕ :=
  (es.filter p).length

/-- The event is a mapping-sample emission naming the given pod. -/
def isMappingBy (p : String) : Event → Bool
  | .emitMapping _ _ podName _ _ => podName = p
  | _ => false

/-- Every label tuple exposed by the first metric set is still exposed by
the second. -/
def metricsMono (m m' : Metrics) : Prop :=
  (∀ k, (getAt m.usage k).isSome = true → (getAt m'.usage k).isSome = true) ∧
  (∀ k, (getAt m.capacity k).isSome = true → (getAt m'.capacity k).isSome = true) ∧
  (∀ k, (getAt m.mapping k).isSome = true → (getAt m'.mapping k).isSome = true)

/-! ### Concrete environments used by the claim theorems -/

/-- A running local pod mounting claim `data-pvc`; the claim resolves as
unbound, so only the mapping gauge is touched. -/
def podC1 : Pod := ⟨"app-1", "default", some "10.0.0.5", "Running", [⟨some "data-pvc"⟩]⟩

/-- Environment for C1: the same pod/claim tuple is present every cycle. -/
def envC1 : Env :=
  { hostIPEnv := some "10.0.0.5"
    pods := [podC1]
    readPVC := fun c n =>
      if c = "data-pvc" ∧ n = "default" then some ⟨"data-pvc", "default", none⟩ else none
    readPV := fun _ => none
    mtab := some []
    statvfs := fun _ => none }

/-- The mapping label tuple envC1 publishes each cycle. -/
def keyC1 : MapKey := ⟨"data-pvc", "default", "app-1", "default", some "10.0.0.5"⟩

/-- The volume and environment of the C4 counterexample: the mount line's
source token is "proc", which does not contain the volume name "pv-abc";
the name occurs only in the mount-point token. -/
def pvC4 : PV := ⟨"pv-abc", true, none⟩

/-- Environment whose only mount entry carries the volume name in the
mount-point field, not the source field. -/
def envC4 : Env :=
  { hostIPEnv := none
    pods := []
    readPVC := fun _ _ => none
    readPV := fun _ => none
    mtab := some ["proc /mnt/pv-abc proc rw 0 0"]
    statvfs := fun mp => if mp = "/mnt/pv-abc" then some ⟨3, 1, 4096⟩ else none }

/-- Claim, volume and two local running pods sharing the claim, for C2. -/
def pvcC2 : PVC := ⟨"data-pvc", "default", some "pv-abc"⟩

/-- The CSI-backed volume of C2, capacity 20Gi. -/
def pvC2 : PV := ⟨"pv-abc", true, some "20Gi"⟩

/-- First pod mounting the shared claim. -/
def podC2a : Pod := ⟨"app-1", "default", some "10.0.0.5", "Running", [⟨some "data-pvc"⟩]⟩

/-- Second pod mounting the same claim. -/
def podC2b : Pod := ⟨"app-2", "default", some "10.0.0.5", "Running", [⟨some "data-pvc"⟩]⟩

/-- C2 environment, parameterised by the filesystem statistics the mount
point reports. -/
def envC2 (stv : StatVFS) : Env :=
  { hostIPEnv := some "10.0.0.5"
    pods := [podC2a, podC2b]
    readPVC := fun c n => if c = "data-pvc" ∧ n = "default" then some pvcC2 else none
    readPV := fun n => if n = "pv-abc" then some pvC2 else none
    mtab := some ["/dev/x /var/lib/kubelet/pods/pv-abc/mount ext4 rw 0 0"]
    statvfs := fun mp =>
      if mp = "/var/lib/kubelet/pods/pv-abc/mount" then some stv else none }

/-- Pod of the first C3 cycle, mounting a measurable claim. -/
def podC3 : Pod := ⟨"app-3", "ns3", some "h3", "Running", [⟨some "c3"⟩]⟩

/-- C3 first-cycle environment: the claim resolves, is measured (usage
(10-4)*512 = 3072) and has capacity 1Ki. -/
def envC3a : Env :=
  { hostIPEnv := some "h3"
    pods := [podC3]
    readPVC := fun c n => if c = "c3" ∧ n = "ns3" then some ⟨"c3", "ns3", some "pv3"⟩ else none
    readPV := fun n => if n = "pv3" then some ⟨"pv3", true, some "1Ki"⟩ else none
    mtab := some ["/dev/pv3 /mnt/pv3 ext4"]
    statvfs := fun mp => if mp = "/mnt/pv3" then some ⟨10, 4, 512⟩ else none }

/-- C3 second-cycle environment: the claim is no longer mounted by any
pod (the pod list is empty). -/
def envC3b : Env := { envC3a with pods := [] }

/-- The ways resolution of claim "c1" can fail in C7: the claim read
raises (NotFound), the claim is unbound, or the volume read raises
(NotFound). -/
inductive FailMode
  | apiMissing
  | unbound
  | pvMissing
  deriving DecidableEq, Repr

/-- What the claim read returns for "c1" in each C7 failure mode. -/
def pvcOfFail : FailMode → Option PVC
  | .apiMissing => none
  | .unbound => some ⟨"c1", "ns1", none⟩
  | .pvMissing => some ⟨"c1", "ns1", some "pv-gone"⟩

/-- C7 pod whose claim fails to resolve. -/
def podC7a : Pod := ⟨"p1", "ns1", some "h", "Running", [⟨some "c1"⟩]⟩

/-- C7 pod whose claim resolves fine, showing the cycle continues. -/
def podC7b : Pod := ⟨"p2", "ns1", some "h", "Running", [⟨some "c2"⟩]⟩

/-- C7 environment, parameterised by how "c1" fails; "c2" resolves to a
non-CSI volume with capacity 1Ki. -/
def envC7 (fm : FailMode) : Env :=
  { hostIPEnv := some "h"
    pods := [podC7a, podC7b]
    readPVC := fun c n =>
      if c = "c1" ∧ n = "ns1" then pvcOfFail fm
      else if c = "c2" ∧ n = "ns1" then some ⟨"c2", "ns1", some "pv2"⟩ else none
    readPV := fun n => if n = "pv2" then some ⟨"pv2", false, some "1Ki"⟩ else none
    mtab := some []
    statvfs := fun _ => none }

/-- C8 claim, successfully resolved. -/
def pvcC8 : PVC := ⟨"c8", "ns8", some "pv8"⟩

/-- C8 volume: NOT CSI-backed, declared capacity 3Ki. -/
def pvC8 : PV := ⟨"pv8", false, some "3Ki"⟩

/-- C8 pod mounting the claim. -/
def podC8 : Pod := ⟨"p8", "ns8", some "h8", "Running", [⟨some "c8"⟩]⟩

/-- C8 environment, parameterised by an arbitrary mount table. -/
def envC8 (lines : List String) : Env :=
  { hostIPEnv := some "h8"
    pods := [podC8]
    readPVC := fun c n => if c = "c8" ∧ n = "ns8" then some pvcC8 else none
    readPV := fun n => if n = "pv8" then some pvC8 else none
    mtab := some lines
    statvfs := fun _ => none }

/-- C9 counterexample pod: Running but with no reported host address. -/
def podC9 : Pod := ⟨"p9", "ns9", none, "Running", [⟨some "c9"⟩]⟩

/-- C9 counterexample environment: HOST_IP is unset, yet the pod matches
because Python `None != None` is false. -/
def envC9 : Env :=
  { hostIPEnv := none
    pods := [podC9]
    readPVC := fun _ _ => none
    readPV := fun _ => none
    mtab := some []
    statvfs := fun _ => none }

/-- C10 claim in namespace nsA. -/
def pvcC10 : PVC := ⟨"c", "nsA", some "pvA"⟩

/-- C10 volume bound to the nsA claim. -/
def pvC10 : PV := ⟨"pvA", true, some "2Ki"⟩

/-- C10 pod in nsA mounting claim "c". -/
def podC10a : Pod := ⟨"p1", "nsA", some "h", "Running", [⟨some "c"⟩]⟩

/-- C10 pod in a DIFFERENT namespace nsB mounting a claim with the same
name "c". -/
def podC10b : Pod := ⟨"p2", "nsB", some "h", "Running", [⟨some "c"⟩]⟩

/-- C10 environment: both namespaces hold a claim named "c"; only nsA's
resolution is ever exercised by the code. -/
def envC10 (stv : StatVFS) : Env :=
  { hostIPEnv := some "h"
    pods := [podC10a, podC10b]
    readPVC := fun c n =>
      if c = "c" ∧ n = "nsA" then some pvcC10
      else if c = "c" ∧ n = "nsB" then some ⟨"c", "nsB", some "pvB"⟩ else none
    readPV := fun n => if n = "pvA" then some pvC10 else none
    mtab := some ["/dev/pvA /mnt/pvA ext4"]
    statvfs := fun mp => if mp = "/mnt/pvA" then some stv else none }

/-! ### Faithfulness of the decimal truncation -/

theorem digit_val_le (c : Char) (h : c.isDigit = true) : c.toNat - '0'.toNat ≤ 9 := by
  simp [Char.isDigit] at h
  obtain ⟨h1, h2⟩ := h
  have h3 : c.val.toNat ≤ 57 := by exact_mod_cast h2
  have h0 : '0'.toNat = 48 := rfl
  rw [h0]
  simp [Char.toNat]
  omega

theorem digitsToNat_aux_lt (ds : List Char) (h : ∀ c ∈ ds, c.isDigit = true) :
    ∀ acc : ℕ, ds.foldl (fun n c => 10 * n + (c.toNat - '0'.toNat)) acc
      < (acc + 1) * 10 ^ ds.length := by
  induction ds with
  | nil => intro acc; simp
  | cons c cs ih =>
      intro acc
      have hc : c.toNat - '0'.toNat ≤ 9 := digit_val_le c (h c (by simp))
      have ihs := ih (fun x hx => h x (by simp [hx])) (10 * acc + (c.toNat - '0'.toNat))
      calc (c :: cs).foldl (fun n c => 10 * n + (c.toNat - '0'.toNat)) acc
          = cs.foldl (fun n c => 10 * n + (c.toNat - '0'.toNat))
              (10 * acc + (c.toNat - '0'.toNat)) := by simp
        _ < (10 * acc + (c.toNat - '0'.toNat) + 1) * 10 ^ cs.length := ihs
        _ ≤ ((acc + 1) * 10) * 10 ^ cs.length := by
              have : 10 * acc + (c.toNat - '0'.toNat) + 1 ≤ (acc + 1) * 10 := by omega
              exact Nat.mul_le_mul_right _ this
        _ = (acc + 1) * 10 ^ (c :: cs).length := by
              rw [List.length_cons, pow_succ]
              ring

theorem digitsToNat_lt (ds : List Char) (h : ∀ c ∈ ds, c.isDigit = true) :
    digitsToNat ds < 10 ^ ds.length := by
  have := digitsToNat_aux_lt ds h 0
  simpa [digitsToNat] using this

theorem pyDecimal?_fp_lt (s : String) (d : PyDecimal)
    (h : pyDecimal? s = some d) : d.fp < 10 ^ d.fpLen := by
  simp only [pyDecimal?] at h
  split at h
  · split at h
    · cases h
    · cases h
      simp
  · split at h
    · cases h
    · split at h
      · cases h
      · cases h
        exact digitsToNat_lt _ (fun c hc => List.mem_takeWhile_imp hc)
  · cases h

theorem trunc_eq_pyInt_toRat (d : PyDecimal) (h : d.fp < 10 ^ d.fpLen) :
    d.trunc = pyInt d.toRat := by
  have hpow : (0 : ℚ) < (10 : ℚ) ^ d.fpLen := by positivity
  have hfrac0 : (0 : ℚ) ≤ (d.fp : ℚ) / (10 : ℚ) ^ d.fpLen := by positivity
  have hfrac1 : (d.fp : ℚ) / (10 : ℚ) ^ d.fpLen < 1 := by
    rw [div_lt_one hpow]
    exact_mod_cast h
  set v : ℚ := (d.ip : ℚ) + (d.fp : ℚ) / (10 : ℚ) ^ d.fpLen with hv
  have hv0 : (0 : ℚ) ≤ v := by positivity
  have hfloor : ⌊v⌋ = (d.ip : ℤ) := by
    rw [Int.floor_eq_iff]
    constructor
    · rw [hv]
      push_cast
      linarith
    · rw [hv]
      push_cast
      linarith
  have hpynegv : pyInt (-v) = -⌊v⌋ := by
    rcases eq_or_lt_of_le hv0 with hz | hpos
    · rw [← hz]
      simp [pyInt]
    · have hneg' : ¬ (0 : ℚ) ≤ -v := by linarith
      simp [pyInt, hneg']
  cases hneg : d.neg with
  | false =>
      simp only [PyDecimal.toRat, PyDecimal.trunc, hneg, cond]
      rw [one_mul]
      simp [pyInt, ← hv, hv0, hfloor]
  | true =>
      simp only [PyDecimal.toRat, PyDecimal.trunc, hneg, cond]
      rw [neg_one_mul, ← hv, hpynegv, hfloor]

/-! ### Gauge lemmas -/

theorem getAt_setAt [DecidableEq κ] (m : List (κ × ℤ)) (k : κ) (v : ℤ) :
    getAt (setAt m k v) k = some v := by
  induction m with
  | nil => simp [setAt, getAt]
  | cons hd tl ih =>
      obtain ⟨k', v'⟩ := hd
      by_cases h : k' = k
      · simp [setAt, getAt, h]
      · simp [setAt, getAt, h, ih]

theorem getAt_incAt [DecidableEq κ] (m : List (κ × ℤ)) (k : κ) :
    getAt (incAt m k) k = some ((getAt m k).getD 0 + 1) := by
  simp [incAt, getAt_setAt]

/-! ### C1: mapping-sample semantics across repeated cycles -/

theorem runCycle_envC1 (m : Metrics) :
    runCycle envC1 m = { m with mapping := incAt m.mapping keyC1 } := rfl

/-- C1: the claim says a (claim, namespace, workload, node) tuple present in
N successive cycles is exposed at the fixed indicator value 1, never N.  The
code instead calls `inc()` on the mapping gauge, so after `n + 1` cycles the
exposed value is `n + 1`: already after the second cycle the sample reads 2,
contradicting the claim. -/
theorem C1_mapping_accumulates_not_indicator (n : ℕ) :
    getAt ((fun m => runCycle envC1 m)^[n + 1] emptyMetrics).mapping keyC1
      = some ((n : ℤ) + 1) := by
  induction n with
  | zero => decide
  | succ n ih =>
      rw [Function.iterate_succ_apply', runCycle_envC1, getAt_incAt, ih]
      simp [Option.getD]

/-! ### C5: parse_size on well-formed quantities -/

/-- C5 counterexample: the claim says the result is the magnitude times the
unit with no rounding beyond truncation to integer bytes, which for
"1.5Ki" is trunc(1.5 * 1024) = 1536.  The code truncates the magnitude
BEFORE scaling — `int(float("1.5")) * 1024 = 1024` — so the claim fails. -/
theorem C5_counterexample :
    parse_size "1.5Ki" = .ok 1024 ∧
    pyDecimal? "1.5" = some ⟨false, 1, 5, 1⟩ ∧
    PyDecimal.toRat ⟨false, 1, 5, 1⟩ = (3 : ℚ) / 2 ∧
    pyInt ((3 : ℚ) / 2 * 1024) = 1536 ∧
    (1024 : ℤ) ≠ 1536 := by
  refine ⟨by decide, by decide, ?_, ?_, by decide⟩
  · norm_num [PyDecimal.toRat]
  · have h : ((3 : ℚ) / 2 * 1024) = ((1536 : ℤ) : ℚ) := by norm_num
    rw [pyInt, if_pos (by rw [h]; positivity), h, Int.floor_intCast]

/-- C5 (amended): `parse_size` returns the magnitude truncated to an
integer, times 1024 raised to the suffix's exponent (truncation applies to
the magnitude before scaling); "10Gi" gives 10737418240 and "1Ki" gives
1024.  Stated with the concrete round-trips, the general form — the result
is the real truncation toward zero of the parsed magnitude's rational
value, times the unit — and the five suffix exponents. -/
theorem C5_parse_size_trunc_then_scale :
    parse_size "10Gi" = .ok 10737418240 ∧
    parse_size "1Ki" = .ok 1024 ∧
    (∀ s d u, pyDecimal? (pyFront2 s) = some d → unitsMap (pyBack2 s) = some u →
      parse_size s = .ok (pyInt d.toRat * u)) ∧
    (unitsMap "Ki" = some (1024 ^ 1) ∧ unitsMap "Mi" = some (1024 ^ 2) ∧
     unitsMap "Gi" = some (1024 ^ 3) ∧ unitsMap "Ti" = some (1024 ^ 4) ∧
     unitsMap "Pi" = some (1024 ^ 5)) := by
  refine ⟨by decide, by decide, ?_, by decide⟩
  intro s d u h1 h2
  simp only [parse_size, h1, h2]
  rw [trunc_eq_pyInt_toRat d (pyDecimal?_fp_lt _ d h1)]

/-- C5 witness: the general component of the theorem evaluated at "10Gi". -/
theorem C5_witness :
    parse_size "10Gi" = .ok (pyInt (PyDecimal.toRat ⟨false, 10, 0, 0⟩) * 1024 ^ 3) :=
  C5_parse_size_trunc_then_scale.2.2.1 "10Gi" ⟨false, 10, 0, 0⟩ (1024 ^ 3)
    (by decide) (by decide)

/-! ### C6: parse_size on malformed quantities -/

/-- C6: any input whose two-character suffix is not one of the five binary
units, or whose magnitude does not parse as a number, makes `parse_size`
fail with an error rather than return a value.  Both concrete Python
exceptions (`ValueError` from `float`, `KeyError` from the dictionary
lookup) realise the spec's `MalformedQuantity`, and no other outcome is
possible on such inputs. -/
theorem C6_parse_size_malformed (s : String)
    (h : unitsMap (pyBack2 s) = none ∨ pyDecimal? (pyFront2 s) = none) :
    isMalformedQuantity (parse_size s) = true := by
  cases hf : pyDecimal? (pyFront2 s) with
  | none => simp [parse_size, hf, isMalformedQuantity]
  | some d =>
      cases h with
      | inl hu => simp [parse_size, hf, hu, isMalformedQuantity]
      | inr hn => rw [hf] at hn; cases hn

/-- C6 witness: "10Qi" has an invalid suffix and is rejected. -/
theorem C6_witness :
    unitsMap (pyBack2 "10Qi") = none ∧
    isMalformedQuantity (parse_size "10Qi") = true :=
  ⟨by decide, C6_parse_size_malformed "10Qi" (Or.inl (by decide))⟩

/-! ### Probe scan lemmas -/

theorem scanMtab_nonCSI (stat : String → Option StatVFS) (pv : PV)
    (h : pv.csi = false) :
    ∀ lines, (scanMtab stat pv lines).1 = (none, none) := by
  intro lines
  induction lines with
  | nil => rfl
  | cons line rest ih =>
      cases hc : strContains line pv.name with
      | false => simpa [scanMtab, hc] using ih
      | true =>
          cases hm : (pySplitWs line)[1]? with
          | none => simp [scanMtab, hc, hm]
          | some mp => simpa [scanMtab, hc, hm, h] using ih

theorem scanMtab_noMatch (stat : String → Option StatVFS) (pv : PV) :
    ∀ lines, (∀ l ∈ lines, strContains l pv.name = false) →
      scanMtab stat pv lines = ((none, none), []) := by
  intro lines
  induction lines with
  | nil => intro _; rfl
  | cons line rest ih =>
      intro h
      have h1 : strContains line pv.name = false := h line (by simp)
      simpa [scanMtab, h1] using ih (fun l hl => h l (by simp [hl]))

theorem scanMtab_firstMatch (stat : String → Option StatVFS) (pv : PV)
    (stv : StatVFS) (mp line : String) (hcsi : pv.csi = true)
    (hline : strContains line pv.name = true)
    (hmp : (pySplitWs line)[1]? = some mp) (hstat : stat mp = some stv) :
    ∀ pre rest, (∀ l ∈ pre, strContains l pv.name = false) →
      scanMtab stat pv (pre ++ line :: rest)
        = ((some ((stv.f_blocks - stv.f_bfree : ℤ) * stv.f_frsize), some "csi"), []) := by
  intro pre
  induction pre with
  | nil =>
      intro rest _
      simp [scanMtab, hline, hmp, hcsi, hstat]
  | cons p ps ih =>
      intro rest h
      have hp : strContains p pv.name = false := h p (by simp)
      simpa [scanMtab, hp] using ih rest (fun l hl => h l (by simp [hl]))

theorem scanMtab_logs (stat : String → Option StatVFS) (pv : PV) :
    ∀ lines, ∀ e ∈ (scanMtab stat pv lines).2, isLogEv e = true := by
  intro lines
  induction lines with
  | nil => simp [scanMtab]
  | cons line rest ih =>
      cases hc : strContains line pv.name with
      | false => simpa [scanMtab, hc] using ih
      | true =>
          cases hm : (pySplitWs line)[1]? with
          | none => simp [scanMtab, hc, hm, isLogEv]
          | some mp =>
              cases hcsi : pv.csi with
              | false => simpa [scanMtab, hc, hm, hcsi] using ih
              | true =>
                  cases hstat : stat mp with
                  | none => simp [scanMtab, hc, hm, hcsi, hstat, isLogEv]
                  | some stv => simp [scanMtab, hc, hm, hcsi, hstat]

/-! ### C4: the mount-table probe -/

/-- C4 counterexample: the claim says the probe matches on the SOURCE token
and returns NotMeasurable when no source token contains the volume
identity.  Here no source token matches ("proc" does not contain
"pv-abc"), yet the code — which tests the WHOLE mount line — measures the
volume and returns used bytes. -/
theorem C4_counterexample :
    strContains "proc" "pv-abc" = false ∧
    (pySplitWs "proc /mnt/pv-abc proc rw 0 0")[0]? = some "proc" ∧
    get_pvc_used envC4 pvC4 = ((some 8192, some "csi"), []) := by
  decide

/-- C4 (amended): the probe scans the mount table in order and acts on the
first entry whose WHOLE LINE contains the volume's identity as a
substring (not just the source token); on that entry, if the volume is
CSI-backed, it returns `(totalBlocks - freeBlocks) * blockSize` computed
from the filesystem statistics of that entry's mount point
(`line.split()[1]`); if the backend is not CSI-backed, or no line
matches, it returns NotMeasurable `(None, None)` rather than an error. -/
theorem C4_probe_whole_line_first_match :
    (∀ (env : Env) (pv : PV) (pre rest : List String) (line mp : String)
        (stv : StatVFS),
       env.mtab = some (pre ++ line :: rest) →
       (∀ l ∈ pre, strContains l pv.name = false) →
       strContains line pv.name = true →
       (pySplitWs line)[1]? = some mp →
       pv.csi = true →
       env.statvfs mp = some stv →
       get_pvc_used env pv
         = ((some ((stv.f_blocks - stv.f_bfree : ℤ) * stv.f_frsize), some "csi"), [])) ∧
    (∀ (env : Env) (pv : PV) (lines : List String),
       env.mtab = some lines → pv.csi = false →
       (get_pvc_used env pv).1 = (none, none)) ∧
    (∀ (env : Env) (pv : PV) (lines : List String),
       env.mtab = some lines → (∀ l ∈ lines, strContains l pv.name = false) →
       get_pvc_used env pv = ((none, none), [])) := by
  refine ⟨?_, ?_, ?_⟩
  · intro env pv pre rest line mp stv hm hpre hline hmp hcsi hstat
    rw [get_pvc_used, hm]
    exact scanMtab_firstMatch env.statvfs pv stv mp line hcsi hline hmp hstat pre rest hpre
  · intro env pv lines hm hcsi
    rw [get_pvc_used, hm]
    exact scanMtab_nonCSI env.statvfs pv hcsi lines
  · intro env pv lines hm hnone
    rw [get_pvc_used, hm]
    exact scanMtab_noMatch env.statvfs pv lines hnone

/-- C4 witness: the three components of the theorem evaluated on concrete
mount tables and volumes. -/
theorem C4_witness :
    get_pvc_used
      { envC4 with mtab := some ["x y", "/dev/pv-abc /mnt/pv-abc ext4"] } pvC4
      = ((some 8192, some "csi"), []) ∧
    (get_pvc_used { envC4 with mtab := some ["/dev/pv-abc /m"] } ⟨"pv-abc", false, none⟩).1
      = (none, none) ∧
    get_pvc_used { envC4 with mtab := some ["a b", "c d"] } pvC4 = ((none, none), []) :=
  ⟨C4_probe_whole_line_first_match.1
      { envC4 with mtab := some ["x y", "/dev/pv-abc /mnt/pv-abc ext4"] } pvC4
      ["x y"] [] "/dev/pv-abc /mnt/pv-abc ext4" "/mnt/pv-abc" ⟨3, 1, 4096⟩
      rfl (by decide) (by decide) (by decide) rfl (by decide),
   C4_probe_whole_line_first_match.2.1
      { envC4 with mtab := some ["/dev/pv-abc /m"] } ⟨"pv-abc", false, none⟩
      ["/dev/pv-abc /m"] rfl rfl,
   C4_probe_whole_line_first_match.2.2
      { envC4 with mtab := some ["a b", "c d"] } pvC4 ["a b", "c d"] rfl (by decide)⟩

/-! ### Counting helpers -/

theorem countIf_append (p : Event → Bool) (a b : List Event) :
    countIf p (a ++ b) = countIf p a + countIf p b := by
  simp [countIf, List.filter_append]

theorem countIf_zero_of_logs (p : Event → Bool) (hlog : ∀ s, p (.logError s) = false)
    (L : List Event) (h : ∀ e ∈ L, isLogEv e = true) : countIf p L = 0 := by
  simp only [countIf, List.length_eq_zero, List.filter_eq_nil_iff]
  intro e he
  have he' := h e he
  cases e <;> simp_all [isLogEv]

/-! ### C2: a claim shared by two workloads in one cycle -/

/-- C2 counterexample: the claim says a claim mounted by two local running
workloads yields exactly TWO mapping samples, the second encounter
skipping resolution but still recording its mapping.  The code's dedup
check returns before `update_pvc_pod_mapping`, so the cycle emits exactly
ONE mapping sample and none at all for the second workload. -/
theorem C2_counterexample :
    countIf isMappingEv (update_metrics (envC2 ⟨2621440, 1310720, 4096⟩) emptyMetrics).events = 1 ∧
    countIf (isMappingBy "app-2")
      (update_metrics (envC2 ⟨2621440, 1310720, 4096⟩) emptyMetrics).events = 0 ∧
    (1 : ℕ) ≠ 2 := by
  decide

/-- C2 (amended): a claim mounted by two running workloads on the local
node produces exactly ONE mapping sample — for the first-encountered
workload only, the second encounter being skipped entirely by the dedup
check — and exactly one usage and one capacity sample, with the Binder
and the Prober each invoked exactly once.  Stated for every filesystem
statistics value the mount point can report. -/
theorem C2_shared_claim_single_mapping (stv : StatVFS) :
    (update_metrics (envC2 stv) emptyMetrics).events =
      [.binderCall "data-pvc" "default",
       .probeCall "pv-abc",
       .emitUsage "data-pvc" "default" (some "csi")
         ((stv.f_blocks - stv.f_bfree : ℤ) * stv.f_frsize),
       .emitCapacity "data-pvc" "default" (some "csi") 21474836480,
       .emitMapping "data-pvc" "default" "app-1" "default" (some "10.0.0.5")] ∧
    countIf isMappingEv (update_metrics (envC2 stv) emptyMetrics).events = 1 ∧
    countIf (isMappingBy "app-1") (update_metrics (envC2 stv) emptyMetrics).events = 1 ∧
    countIf (isMappingBy "app-2") (update_metrics (envC2 stv) emptyMetrics).events = 0 ∧
    countIf (isUsageFor "data-pvc") (update_metrics (envC2 stv) emptyMetrics).events = 1 ∧
    countIf (isCapacityFor "data-pvc") (update_metrics (envC2 stv) emptyMetrics).events = 1 ∧
    countIf isBinderEv (update_metrics (envC2 stv) emptyMetrics).events = 1 ∧
    countIf isProbeEv (update_metrics (envC2 stv) emptyMetrics).events = 1 :=
  ⟨rfl, rfl, rfl, rfl, rfl, rfl, rfl, rfl⟩

/-! ### C3: lifecycle of stale label tuples -/

/-- C3 counterexample: the claim says a tuple present in the earlier
cycle's snapshot and absent from the later one is no longer exposed at
its old value.  After a first cycle that measures claim c3 and a second
cycle in which nothing mounts it (no usage/capacity/mapping emission at
all), all three tuples are still exposed at their old values: the code
never removes or zeroes gauge children. -/
theorem C3_counterexample :
    countIf isUsageEv (update_metrics envC3b (runCycle envC3a emptyMetrics)).events = 0 ∧
    countIf isCapacityEv (update_metrics envC3b (runCycle envC3a emptyMetrics)).events = 0 ∧
    countIf isMappingEv (update_metrics envC3b (runCycle envC3a emptyMetrics)).events = 0 ∧
    getAt (runCycle envC3b (runCycle envC3a emptyMetrics)).usage
      ⟨"c3", "ns3", some "csi"⟩ = some 3072 ∧
    getAt (runCycle envC3b (runCycle envC3a emptyMetrics)).capacity
      ⟨"c3", "ns3", some "csi"⟩ = some 1024 ∧
    getAt (runCycle envC3b (runCycle envC3a emptyMetrics)).mapping
      ⟨"c3", "ns3", "app-3", "ns3", some "h3"⟩ = some 1 := by
  decide

/-! ### Gauge nondeletion: no cycle ever removes an exposed label tuple -/

theorem getAt_setAt_eq [DecidableEq κ] (m : List (κ × ℤ)) (k k' : κ) (v : ℤ) :
    getAt (setAt m k v) k' = if k = k' then some v else getAt m k' := by
  induction m with
  | nil => by_cases h : k = k' <;> simp [setAt, getAt, h]
  | cons hd tl ih =>
      obtain ⟨a, b⟩ := hd
      by_cases hak : a = k
      · subst hak
        by_cases hk' : a = k' <;> simp [setAt, getAt, hk']
      · by_cases hk' : a = k'
        · subst hk'
          have hka : ¬ k = a := fun h => hak h.symm
          simp [setAt, hak, getAt, hka]
        · simp [setAt, hak, getAt, hk', ih]

theorem metricsMono_refl (m : Metrics) : metricsMono m m :=
  ⟨fun _ h => h, fun _ h => h, fun _ h => h⟩

theorem metricsMono_trans {a b c : Metrics} (h1 : metricsMono a b) (h2 : metricsMono b c) :
    metricsMono a c :=
  ⟨fun k h => h2.1 k (h1.1 k h), fun k h => h2.2.1 k (h1.2.1 k h),
   fun k h => h2.2.2 k (h1.2.2 k h)⟩

theorem mono_setUsage (m : Metrics) (k : UCKey) (v : ℤ) :
    metricsMono m { m with usage := setAt m.usage k v } := by
  refine ⟨fun k' h => ?_, fun _ h => h, fun _ h => h⟩
  simp only [getAt_setAt_eq]
  by_cases hkk : k = k' <;> simp [hkk, h]

theorem mono_setCapacity (m : Metrics) (k : UCKey) (v : ℤ) :
    metricsMono m { m with capacity := setAt m.capacity k v } := by
  refine ⟨fun _ h => h, fun k' h => ?_, fun _ h => h⟩
  simp only [getAt_setAt_eq]
  by_cases hkk : k = k' <;> simp [hkk, h]

theorem mono_incMapping (m : Metrics) (k : MapKey) :
    metricsMono m { m with mapping := incAt m.mapping k } := by
  refine ⟨fun _ h => h, fun _ h => h, fun k' h => ?_⟩
  simp only [incAt, getAt_setAt_eq]
  by_cases hkk : k = k' <;> simp [hkk, h]

theorem update_pvc_metrics_mono (env : Env) (pvc : PVC) (pv : PV) (st : St)
    (m : Metrics) (hm : st.metrics = m) :
    metricsMono m (update_pvc_metrics env pvc pv st).metrics := by
  subst hm
  simp only [update_pvc_metrics]
  split
  · exact metricsMono_refl _
  · split
    · split
      · split
        · dsimp only
          exact mono_setUsage _ _ _
        · dsimp only
          exact metricsMono_refl _
      · split
        · dsimp only
          exact metricsMono_trans (mono_setUsage _ _ _) (mono_setCapacity _ _ _)
        · dsimp only
          exact mono_setCapacity _ _ _
    · split
      · dsimp only
        exact mono_setUsage _ _ _
      · dsimp only
        exact metricsMono_refl _

theorem update_pvc_pod_mapping_mono (c n : String) (pod : Pod) (st : St) :
    metricsMono st.metrics (update_pvc_pod_mapping c n pod st).metrics := by
  simp only [update_pvc_pod_mapping]
  split
  · exact metricsMono_refl _
  · dsimp only
    exact mono_incMapping _ _

theorem handle_pvc_mono (env : Env) (c n : String) (st : St) :
    metricsMono st.metrics (handle_pvc env c n st).metrics := by
  simp only [handle_pvc]
  split
  · exact metricsMono_refl _
  · split
    · exact metricsMono_refl _
    · split
      · exact update_pvc_metrics_mono _ _ _ _ _ rfl
      · dsimp only
        exact update_pvc_metrics_mono _ _ _ _ _ rfl

theorem handle_volume_mono (env : Env) (v : Volume) (pod : Pod) (n : String) (st : St) :
    metricsMono st.metrics (handle_volume env v pod n st).metrics := by
  simp only [handle_volume]
  split
  · exact metricsMono_refl _
  · split
    · exact metricsMono_refl _
    · split
      · exact metricsMono_refl _
      · exact metricsMono_trans (handle_pvc_mono _ _ _ _) (update_pvc_pod_mapping_mono _ _ _ _)

theorem foldl_mono {α : Type} (f : St → α → St)
    (hf : ∀ st a, metricsMono st.metrics (f st a).metrics) :
    ∀ (L : List α) (st : St), metricsMono st.metrics (L.foldl f st).metrics
  | [], _ => metricsMono_refl _
  | a :: as, st =>
      metricsMono_trans (hf st a) (foldl_mono f hf as (f st a))

theorem handle_pod_mono (env : Env) (pod : Pod) (st : St) :
    metricsMono st.metrics (handle_pod env pod st).metrics := by
  simp only [handle_pod]
  split
  · exact metricsMono_refl _
  · split
    · exact metricsMono_refl _
    · exact foldl_mono _ (fun st v => handle_volume_mono env v pod pod.ns st) pod.volumes st

theorem update_metrics_mono (env : Env) (m : Metrics) :
    metricsMono m (update_metrics env m).metrics := by
  have h := foldl_mono _ (fun st p => handle_pod_mono env p st) env.pods
    ⟨[], [], m, [], none⟩
  exact h

/-- C3 (amended): a label tuple present in the earlier cycle's snapshot
but absent from the later cycle's snapshot is NOT removed: after the later
cycle's publish the exposed metric set still contains the tuple — the
publisher never deletes a gauge child, for any environment and any prior
state (first three components) — and concretely a tuple the later cycle
never touches keeps its exact old value, i.e. stale samples are frozen,
not removed. -/
theorem C3_stale_tuples_frozen_not_removed :
    (∀ (env : Env) (m : Metrics) (k : UCKey),
        (getAt m.usage k).isSome = true → (getAt (runCycle env m).usage k).isSome = true) ∧
    (∀ (env : Env) (m : Metrics) (k : UCKey),
        (getAt m.capacity k).isSome = true → (getAt (runCycle env m).capacity k).isSome = true) ∧
    (∀ (env : Env) (m : Metrics) (k : MapKey),
        (getAt m.mapping k).isSome = true → (getAt (runCycle env m).mapping k).isSome = true) ∧
    (countIf isUsageEv (update_metrics envC3b (runCycle envC3a emptyMetrics)).events = 0 ∧
     getAt (runCycle envC3b (runCycle envC3a emptyMetrics)).usage ⟨"c3", "ns3", some "csi"⟩
       = getAt (runCycle envC3a emptyMetrics).usage ⟨"c3", "ns3", some "csi"⟩) := by
  refine ⟨?_, ?_, ?_, by decide, by decide⟩
  · intro env m k h
    exact (update_metrics_mono env m).1 k h
  · intro env m k h
    exact (update_metrics_mono env m).2.1 k h
  · intro env m k h
    exact (update_metrics_mono env m).2.2 k h

/-- C3 witness: a tuple exposed after the first cycle is still exposed
after a second cycle that never mentions it. -/
theorem C3_witness :
    (getAt (runCycle envC3a emptyMetrics).usage ⟨"c3", "ns3", some "csi"⟩).isSome = true ∧
    (getAt (runCycle envC3b (runCycle envC3a emptyMetrics)).usage
        ⟨"c3", "ns3", some "csi"⟩).isSome = true :=
  ⟨by decide,
   C3_stale_tuples_frozen_not_removed.1 envC3b (runCycle envC3a emptyMetrics)
     ⟨"c3", "ns3", some "csi"⟩ (by decide)⟩

/-! ### C7: claims that fail to resolve -/

/-- C7 counterexample: the claim says that for a claim resolving to
Unbound or NotFound "the failure is logged".  For an Unbound claim the
code returns `(None, None)` without any `logger.error` call: the cycle's
trace contains no log event at all, though the mapping sample is still
recorded. -/
theorem C7_counterexample :
    (get_pvc_pv_pair (envC7 .unbound) "c1" "ns1").1 = none ∧
    countIf isLogEv (update_metrics (envC7 .unbound) emptyMetrics).events = 0 ∧
    Event.emitMapping "c1" "ns1" "p1" "ns1" (some "h")
      ∈ (update_metrics (envC7 .unbound) emptyMetrics).events := by
  decide

/-- C7 (amended): for a claim whose resolution yields Unbound or NotFound
(in any of the three ways: the claim read raises, the claim has no bound
volume name, or the volume read raises), the cycle emits no usage and no
capacity sample for that claim, nothing is raised (`err?` stays empty),
the cycle continues with other claims (the second pod's capacity sample
is still emitted), and the mapping sample for the encountering workload
is still recorded; a NotFound fetch failure is logged, while Unbound is
skipped silently without a log line. -/
theorem C7_resolution_failure_handling (fm : FailMode) :
    (get_pvc_pv_pair (envC7 fm) "c1" "ns1").1 = none ∧
    countIf (isUsageFor "c1") (update_metrics (envC7 fm) emptyMetrics).events = 0 ∧
    countIf (isCapacityFor "c1") (update_metrics (envC7 fm) emptyMetrics).events = 0 ∧
    Event.emitMapping "c1" "ns1" "p1" "ns1" (some "h")
      ∈ (update_metrics (envC7 fm) emptyMetrics).events ∧
    (update_metrics (envC7 fm) emptyMetrics).err? = none ∧
    Event.emitCapacity "c2" "ns1" none 1024
      ∈ (update_metrics (envC7 fm) emptyMetrics).events ∧
    (fm ≠ FailMode.unbound →
      Event.logError "c1" ∈ (update_metrics (envC7 fm) emptyMetrics).events) ∧
    (fm = FailMode.unbound →
      countIf isLogEv (update_metrics (envC7 fm) emptyMetrics).events = 0) := by
  cases fm <;> decide

/-- C7 witness: the NotFound (claim read raises) mode, with its log line. -/
theorem C7_witness :
    FailMode.apiMissing ≠ FailMode.unbound ∧
    Event.logError "c1"
      ∈ (update_metrics (envC7 .apiMissing) emptyMetrics).events :=
  ⟨by decide,
   (C7_resolution_failure_handling .apiMissing).2.2.2.2.2.2.1 (by decide)⟩

/-! ### C8: resolved claim backed by a non-CSI volume -/

theorem update_metrics_envC8 (lines : List String) :
    update_metrics (envC8 lines) emptyMetrics =
      { pvc_to_pv := [("c8", (pvcC8, pvC8))]
        processed := ["c8"]
        metrics := { usage := [], capacity := [(⟨"c8", "ns8", none⟩, 3072)],
                     mapping := [(⟨"c8", "ns8", "p8", "ns8", some "h8"⟩, 1)] }
        events := [Event.binderCall "c8" "ns8", Event.probeCall "pv8"]
                    ++ (get_pvc_used (envC8 lines) pvC8).2
                    ++ [Event.emitCapacity "c8" "ns8" none 3072,
                        Event.emitMapping "c8" "ns8" "p8" "ns8" (some "h8")]
        err? := none } := by
  have hprobe : (get_pvc_used (envC8 lines) pvC8).1 = (none, none) :=
    scanMtab_nonCSI (envC8 lines).statvfs pvC8 rfl lines
  have hsplit : get_pvc_used (envC8 lines) pvC8
      = ((none, none), (get_pvc_used (envC8 lines) pvC8).2) := by
    rw [← hprobe]
  show update_pvc_pod_mapping "c8" "ns8" podC8
      (handle_pvc (envC8 lines) "c8" "ns8" ⟨[], [], emptyMetrics, [], none⟩) = _
  rw [handle_pvc]
  simp only [show get_pvc_pv_pair (envC8 lines) "c8" "ns8" = (some (pvcC8, pvC8), []) from rfl]
  simp only [update_pvc_metrics]
  rw [hsplit]
  simp only [pvcC8, pvC8, podC8, truthy, Option.getD]
  rw [show parse_size "3Ki" = Except.ok 3072 from by decide]
  simp only [show "3Ki".isEmpty = false from by decide]
  simp [update_pvc_pod_mapping, setAt, incAt, getAt, setPair, emptyMetrics]

/-- C8: a successfully resolved claim whose bound volume is not CSI-backed
(so the probe reports NotMeasurable on every mount table) gets no usage
sample in the cycle, but its capacity sample is still emitted, with the
value obtained by the Size Parser from the volume's declared capacity
"3Ki".  Stated for every mount table. -/
theorem C8_nonCSI_capacity_not_usage (lines : List String) :
    (get_pvc_used (envC8 lines) pvC8).1 = (none, none) ∧
    countIf isUsageEv (update_metrics (envC8 lines) emptyMetrics).events = 0 ∧
    parse_size "3Ki" = Except.ok 3072 ∧
    Event.emitCapacity "c8" "ns8" none 3072
      ∈ (update_metrics (envC8 lines) emptyMetrics).events ∧
    getAt (update_metrics (envC8 lines) emptyMetrics).metrics.capacity
      ⟨"c8", "ns8", none⟩ = some 3072 ∧
    (update_metrics (envC8 lines) emptyMetrics).err? = none := by
  have main := update_metrics_envC8 lines
  have hlogs : ∀ e ∈ (get_pvc_used (envC8 lines) pvC8).2, isLogEv e = true :=
    scanMtab_logs (envC8 lines).statvfs pvC8 lines
  refine ⟨scanMtab_nonCSI (envC8 lines).statvfs pvC8 rfl lines, ?_, by decide, ?_, ?_, ?_⟩
  · rw [main]
    simp only [countIf_append]
    rw [countIf_zero_of_logs isUsageEv (fun s => rfl) _ hlogs]
    decide
  · rw [main]
    simp
  · rw [main]
    rfl
  · rw [main]

/-! ### C9: the node and phase filter -/

/-- C9 counterexample: the claim says that with the local node identity
absent from configuration no workload ever matches and nothing is
reported.  Python compares with `!=`, and `None != None` is false, so a
Running pod whose own `host_ip` is also absent DOES match and its mapping
sample is emitted. -/
theorem C9_counterexample :
    envC9.hostIPEnv = none ∧
    Event.emitMapping "c9" "ns9" "p9" "ns9" none
      ∈ (update_metrics envC9 emptyMetrics).events := by
  decide

/-- C9 (amended): a workload whose reported node address differs from the
configured local node identity, or whose phase is not "Running", leaves
the cycle state completely unchanged (no usage, capacity or mapping
sample on its account); with the local node identity absent, every
workload that reports a node address is filtered out — an entire pod list
of such workloads makes the cycle emit nothing and leave the gauges
untouched.  Only a Running workload whose own address is also absent can
still match (see the counterexample). -/
theorem C9_node_and_phase_filter :
    (∀ (env : Env) (pod : Pod) (st : St),
        (pod.hostIP ≠ env.hostIPEnv ∨ pod.phase ≠ "Running") →
        handle_pod env pod st = st) ∧
    (∀ (env : Env) (pod : Pod) (st : St) (x : String),
        env.hostIPEnv = none → pod.hostIP = some x → handle_pod env pod st = st) ∧
    (∀ (env : Env) (m : Metrics),
        (∀ pod ∈ env.pods, pod.hostIP ≠ env.hostIPEnv ∨ pod.phase ≠ "Running") →
        (update_metrics env m).events = [] ∧ (update_metrics env m).metrics = m) := by
  have h1 : ∀ (env : Env) (pod : Pod) (st : St),
      (pod.hostIP ≠ env.hostIPEnv ∨ pod.phase ≠ "Running") →
      handle_pod env pod st = st := by
    intro env pod st h
    simp only [handle_pod]
    by_cases herr : st.err?.isSome = true
    · simp [herr]
    · simp only [herr, Bool.false_eq_true, if_false]
      rw [if_pos h]
  refine ⟨h1, ?_, ?_⟩
  · intro env pod st x he hp
    exact h1 env pod st (Or.inl (by simp [he, hp]))
  · intro env m hall
    have hfold : ∀ (L : List Pod) (st : St),
        (∀ p ∈ L, p.hostIP ≠ env.hostIPEnv ∨ p.phase ≠ "Running") →
        L.foldl (fun s p => handle_pod env p s) st = st := by
      intro L
      induction L with
      | nil => intro st _; rfl
      | cons p ps ih =>
          intro st hL
          rw [List.foldl_cons, h1 env p st (hL p (by simp))]
          exact ih st (fun q hq => hL q (by simp [hq]))
    rw [update_metrics, hfold env.pods _ hall]
    exact ⟨rfl, rfl⟩

/-- C9 witness: a pod on another node is skipped, and a cluster whose only
pod reports an address while HOST_IP is unset produces an empty trace. -/
theorem C9_witness :
    handle_pod envC1 ⟨"x", "n", some "1.2.3.4", "Running", []⟩
      ⟨[], [], emptyMetrics, [], none⟩ = ⟨[], [], emptyMetrics, [], none⟩ ∧
    (update_metrics { envC1 with hostIPEnv := none } emptyMetrics).events = [] := by
  refine ⟨C9_node_and_phase_filter.1 envC1 _ _ (Or.inl (by decide)),
          (C9_node_and_phase_filter.2.2 { envC1 with hostIPEnv := none } emptyMetrics ?_).1⟩
  intro pod hpod
  have : pod = podC1 := by simpa [envC1] using hpod
  subst this
  exact Or.inl (by decide)

/-! ### C10: dedup and cache are keyed by claim name alone -/

/-- C10: two running local workloads in different namespaces each mount a
claim named "c"; the dedup set and the claim-to-volume cache are keyed by
the bare claim name, so only the first-encountered claim (namespace nsA)
is resolved and emits usage and capacity samples, while the second
workload's same-named claim is skipped entirely: no Binder call, no
samples, not even a mapping sample, mentions namespace nsB.  Stated for
every filesystem statistics value. -/
theorem C10_same_name_claim_cross_namespace_dedup (stv : StatVFS) :
    (update_metrics (envC10 stv) emptyMetrics).events =
      [.binderCall "c" "nsA",
       .probeCall "pvA",
       .emitUsage "c" "nsA" (some "csi")
         ((stv.f_blocks - stv.f_bfree : ℤ) * stv.f_frsize),
       .emitCapacity "c" "nsA" (some "csi") 2048,
       .emitMapping "c" "nsA" "p1" "nsA" (some "h")] ∧
    (update_metrics (envC10 stv) emptyMetrics).processed = ["c"] ∧
    (update_metrics (envC10 stv) emptyMetrics).pvc_to_pv = [("c", (pvcC10, pvC10))] ∧
    countIf isBinderEv (update_metrics (envC10 stv) emptyMetrics).events = 1 ∧
    countIf (mentionsNs "nsB") (update_metrics (envC10 stv) emptyMetrics).events = 0 :=
  ⟨rfl, rfl, rfl, rfl, rfl⟩

end PvcExporter
